import Mathlib

/-!
Shallow embedding of the go-perf library (perf.data parser and session
tracker) and proofs about it.

The embedding follows the Go sources: package perfsession (Session, PIDInfo,
Mmap, fork, munmap, LookupMmap) and package perffile (header validation in
New, readFileAttr, the feature-section loop, getAttr, parseThrottle,
parseSample attr lookup, decodeDataSrc, and the time-ordered record pass).
Machine integers (uint64) are modelled as Nat with explicit wrap-around
helpers where Go arithmetic can overflow.
-/

set_option maxRecDepth 4096

deriving instance DecidableEq for Except

/-- 2 to the 64th power: the modulus of Go uint64 arithmetic. -/
def U64MOD : Nat := 18446744073709551616

/-- Go uint64 addition: wraps modulo 2 to the 64. -/
def uadd (a b : Nat) : Nat := (a + b) % U64MOD

/-- Go uint64 subtraction: wraps modulo 2 to the 64 (for a, b below the
modulus this is a - b when b is at most a, else the wrapped difference). -/
def usub (a b : Nat) : Nat := (a + U64MOD - b % U64MOD) % U64MOD

namespace perfsession

/-- Go interface Forkable (part_000): a value that can produce a child copy
of itself given the child pid. -/
class Forkable (α : Type) where
  fork : α → Int → α

instance : Forkable Unit := ⟨fun _ _ => ()⟩

/-- Go struct Mmap (part_000): a ForkableExtra bag plus the embedded
perffile.RecordMmap. Of the embedded record we keep the fields the session
layer reads and writes: Addr, Len, FileOffset, Filename (uint64 fields as
Nat below the modulus). -/
structure Mmap (ε : Type) where
  Extra : ε
  Addr : Nat
  Len : Nat
  FileOffset : Nat
  Filename : String
deriving Repr, DecidableEq

/-- Go Mmap.fork (part_000): fork the extras, copy the embedded record. -/
def Mmap.fork [Forkable ε] (m : Mmap ε) (pid : Int) : Mmap ε :=
  { m with Extra := Forkable.fork m.Extra pid }

/-- Go struct PIDInfo (part_000). The kernel field is a pointer to the
session kernel PIDInfo (nil for the kernel itself); we model the pointer as
the flag hasKernel, resolved against the session entry at pid -1 where the
kernel PIDInfo lives. -/
structure PIDInfo (ε : Type) where
  Extra : ε
  Comm : String
  hasKernel : Bool
  maps : List (Mmap ε)
deriving Repr, DecidableEq

/-- Go PIDInfo.fork (part_000 lines 88-94): fork the extras, copy Comm and
the kernel pointer, and rebuild the maps list with every Mmap forked. -/
def PIDInfo.fork [Forkable ε] (p : PIDInfo ε) (pid : Int) : PIDInfo ε :=
  { Extra := Forkable.fork p.Extra pid
    Comm := p.Comm
    hasKernel := p.hasKernel
    maps := p.maps.map (fun m => m.fork pid) }

/-- One iteration of the loop in Go PIDInfo.munmap (part_000 lines 100-122)
for the unmapped range [a, e). Returns the in-place result for this map
(none when the map was removed, that is set to nil) and the extra map that
the split branch appends to nmaps, if any. All comparisons and arithmetic
are Go uint64 operations. Note the split branch of the source copies the
map, overwrites only Len with end - (Addr+Len) (which wraps), and never
touches Addr or FileOffset. -/
def munmapStep (a e : Nat) (m : Mmap ε) : Option (Mmap ε) × Option (Mmap ε) :=
  let mend := uadd m.Addr m.Len
  if a ≤ m.Addr then
    if e ≥ mend then
      (none, none)
    else if e > m.Addr then
      (some { m with Len := usub m.Len (usub e m.Addr), Addr := e }, none)
    else
      (some m, none)
  else if a < mend then
    if e ≥ mend then
      (some { m with Len := usub a m.Addr }, none)
    else
      (some { m with Len := usub a m.Addr }, some { m with Len := usub e mend })
  else
    (some m, none)

/-- Go PIDInfo.munmap (part_000 lines 96-137). The loop body is munmapStep;
split tails are appended after all original entries (Go appends them to
nmaps past the original length), and the nil entries left by removals are
compacted out while every surviving entry keeps its relative order. -/
def PIDInfo.munmap (p : PIDInfo ε) (addr mlen : Nat) : PIDInfo ε :=
  let e := uadd addr mlen
  let res := p.maps.map (munmapStep addr e)
  { p with maps := res.filterMap Prod.fst ++ res.filterMap Prod.snd }

/-- Go PIDInfo.mapFind (part_000 lines 139-146): first map whose uint64
range [Addr, Addr+Len) contains addr. -/
def mapFind (maps : List (Mmap ε)) (addr : Nat) : Option (Mmap ε) :=
  match maps with
  | [] => none
  | m :: rest =>
    if m.Addr ≤ addr ∧ addr < uadd m.Addr m.Len then some m else mapFind rest addr

/-- Go struct Session (part_000): the pid to PIDInfo map. The kernel
PIDInfo is the entry at pid -1, created by New; a PIDInfo whose hasKernel
flag is set holds the pointer to it. -/
structure Session (ε : Type) where
  pidInfo : Int → Option (PIDInfo ε)

/-- Go New (part_000 lines 19-33): a fresh session whose only entry is the
kernel PIDInfo at pid -1 (Comm "[kernel]", nil kernel pointer, no maps). -/
def Session.new [Inhabited ε] : Session ε :=
  ⟨fun p => if p = -1 then
      some { Extra := default, Comm := "[kernel]", hasKernel := false, maps := [] }
    else none⟩

/-- Store a PIDInfo under a pid (Go map assignment). -/
def Session.setPID (s : Session ε) (pid : Int) (info : PIDInfo ε) : Session ε :=
  ⟨fun q => if q = pid then some info else s.pidInfo q⟩

/-- Remove a pid entry (Go delete). -/
def Session.delPID (s : Session ε) (pid : Int) : Session ε :=
  ⟨fun q => if q = pid then none else s.pidInfo q⟩

/-- Go ensurePID closure inside Session.Update (part_000 lines 36-46):
return the existing PIDInfo or insert a fresh one (empty extras, kernel
pointer set to the session kernel, empty Comm and maps). -/
def Session.ensurePID [Inhabited ε] (s : Session ε) (pid : Int) :
    PIDInfo ε × Session ε :=
  match s.pidInfo pid with
  | some info => (info, s)
  | none =>
    let info : PIDInfo ε := { Extra := default, Comm := "", hasKernel := true, maps := [] }
    (info, s.setPID pid info)

/-- The perffile record variants that Go Session.Update inspects, carrying
exactly the fields Update reads; every other record type is the case other.
For mmap, the fields are those of perffile.RecordMmap kept in the Mmap
model. -/
inductive Record where
  | comm (pid : Int) (c : String)
  | exit (pid tid : Int)
  | fork (pid tid ppid : Int)
  | mmap (pid : Int) (addr len off : Nat) (fname : String)
  | sample (pid : Int)
  | other

/-- Go Session.Update (part_000 lines 35-74): dispatch on the record type.
comm sets Comm on the ensured PIDInfo; exit deletes the pid when PID = TID;
fork clones the parent PIDInfo into the child when PID = TID; mmap first
munmaps the new range on the ensured PIDInfo and then appends the new Mmap
(with a fresh empty extras bag); sample merely ensures the PIDInfo. -/
def Session.Update [Inhabited ε] [Forkable ε] (s : Session ε) (r : Record) :
    Session ε :=
  match r with
  | .comm pid c =>
    let pr := s.ensurePID pid
    pr.2.setPID pid { pr.1 with Comm := c }
  | .exit pid tid =>
    if pid = tid then s.delPID pid else s
  | .fork pid tid ppid =>
    if pid = tid then
      let pr := s.ensurePID ppid
      pr.2.setPID pid (pr.1.fork pid)
    else s
  | .mmap pid addr len off fname =>
    let pr := s.ensurePID pid
    let info1 := pr.1.munmap addr len
    pr.2.setPID pid
      { info1 with maps := info1.maps ++
          [{ Extra := default, Addr := addr, Len := len, FileOffset := off, Filename := fname }] }
  | .sample pid => (s.ensurePID pid).2
  | .other => s

/-- Go Session.LookupPID (part_000 lines 76-78). -/
def Session.LookupPID (s : Session ε) (pid : Int) : Option (PIDInfo ε) :=
  s.pidInfo pid

/-- Go PIDInfo.LookupMmap (part_000 lines 148-154): search the process
maps, then fall back to the kernel maps when the kernel pointer is not nil.
The kernel pointer is resolved against the session entry at pid -1. -/
def PIDInfo.LookupMmap (p : PIDInfo ε) (s : Session ε) (addr : Nat) :
    Option (Mmap ε) :=
  match mapFind p.maps addr with
  | some m => some m
  | none =>
    if p.hasKernel then
      match s.pidInfo (-1) with
      | some k => mapFind k.maps addr
      | none => none
    else none

/-- Disjointness of two maps exactly as claimed: either M ends before N
starts or N ends before M starts (plain arithmetic on the stored values). -/
def disjointMmap (m n : Mmap ε) : Prop :=
  m.Addr + m.Len ≤ n.Addr ∨ n.Addr + n.Len ≤ m.Addr

instance (m n : Mmap ε) : Decidable (disjointMmap m n) := by
  unfold disjointMmap; infer_instance

end perfsession

namespace perffile

/-- Go struct fileSection (format.go): an (offset, size) pair of uint64. -/
structure fileSection where
  Offset : Nat
  Size : Nat
deriving Repr, DecidableEq

/-- Go struct fileHeader (format.go): magic bytes (compared as a string in
New), the on-disk header size, the attr struct size, the attrs and data
sections, the ignored event_types section, and four uint64 limbs holding
the 256-bit feature bitmap. -/
structure fileHeader where
  Magic : String
  Size : Nat
  AttrSize : Nat
  Attrs : fileSection
  Data : fileSection
  eventTypes : fileSection
  Features : List Nat
deriving Repr, DecidableEq

/-- binary.Size of the Go fileHeader: 8 magic bytes, two uint64, three
16-byte fileSections, and 4 uint64 feature limbs: 8+8+8+48+32 = 104. -/
def fileHeaderSize : Nat := 104

/-- Go fileHeader.hasFeature (format.go lines 32-34). -/
def fileHeader.hasFeature (h : fileHeader) (f : Nat) : Bool :=
  (h.Features.getD (f / 64) 0) &&& (1 <<< (f % 64)) != 0

/-- The header-validation part of Go New (part_008 lines 54-94): the magic
switch, the header-size check, the zero data-section check, the attr-size
check, and the attr-count computation with its zero and too-large checks.
On success it returns nAttrs, the number of attr slots New goes on to
read. The error strings are those of the source. -/
def checkHeader (hdr : fileHeader) : Except String Nat :=
  if hdr.Magic = "PERFILE2" then
    if hdr.Size ≠ fileHeaderSize then
      .error "bad header size"
    else if hdr.Data.Size = 0 then
      .error "truncated data file; was perf record properly terminated?"
    else if hdr.AttrSize = 0 then
      .error "bad attr size 0"
    else
      let nAttrs := hdr.Attrs.Size / hdr.AttrSize
      if nAttrs = 0 then
        .error "no event types"
      else if nAttrs > 64 * 1024 then
        .error "too many attrs or bad attr size"
      else
        .ok nAttrs
  else if hdr.Magic = "2ELIFREP" then
    .error "big endian profiles not supported"
  else if hdr.Magic = "PERFFILE" then
    .error "version 1 profiles not supported"
  else
    .error ("bad or unsupported file magic " ++ hdr.Magic)

/-- The fields of Go eventAttrVN beyond the embedded eventAttrV0
(format.go lines 109-141), in declaration order: the order in which the
incremental loop of readFileAttr reads them. -/
inductive AttrField where
  | bpLenOrConfig2
  | branchSampleType
  | sampleRegsUser
  | sampleStackUser
  | clockID
  | sampleRegsIntr
  | auxWatermark
  | sampleMaxStack
  | pad
  | auxSampleSize
  | pad2
  | sigData
deriving Repr, DecidableEq

/-- binary.Size of each eventAttrVN field beyond the v0 prefix. -/
def AttrField.byteSize : AttrField → Nat
  | .bpLenOrConfig2 => 8
  | .branchSampleType => 8
  | .sampleRegsUser => 8
  | .sampleStackUser => 4
  | .clockID => 4
  | .sampleRegsIntr => 8
  | .auxWatermark => 4
  | .sampleMaxStack => 2
  | .pad => 2
  | .auxSampleSize => 4
  | .pad2 => 4
  | .sigData => 8

/-- The eventAttrVN fields beyond the v0 prefix in on-disk order. -/
def vnFields : List AttrField :=
  [.bpLenOrConfig2, .branchSampleType, .sampleRegsUser, .sampleStackUser,
   .clockID, .sampleRegsIntr, .auxWatermark, .sampleMaxStack, .pad,
   .auxSampleSize, .pad2, .sigData]

/-- binary.Size of the Go eventAttrV0 struct: 64 bytes. -/
def eventAttrV0Size : Nat := 64

/-- binary.Size of the full Go eventAttrVN struct: 64 + 8+8+8+4+4+8+4+2+2+
4+4+8 = 128 bytes (on-disk ABI version 7). -/
def eventAttrVNSize : Nat := 128

/-- The incremental field loop of Go readFileAttr (part_008 lines 210-219):
walk the fields after the v0 prefix while the remaining-byte counter (a Go
int, so possibly negative) is still positive, subtracting each field size
as it is read. Returns the list of fields actually read. -/
def readExtraFields (left : Int) (fs : List AttrField) : List AttrField :=
  match fs with
  | [] => []
  | f :: rest =>
    if left > 0 then f :: readExtraFields (left - (f.byteSize : Int)) rest
    else []

/-- The size-handling strategy of Go readFileAttr (part_008 lines 193-220):
after the v0 prefix is read, a declared size of 0 means assume ABI v0 (64
bytes) and read nothing further; a declared size beyond the latest
supported layout is an error; otherwise read the post-v0 fields
incrementally until the declared size is exhausted. On success, returns
the effective size together with the post-v0 fields that were read. -/
def readFileAttrFields (size : Nat) : Except String (Nat × List AttrField) :=
  if size = 0 then
    .ok (eventAttrV0Size, [])
  else if size > eventAttrVNSize then
    .error "event attr size too large; more recent and unsupported format"
  else
    .ok (size, readExtraFields ((size : Int) - (eventAttrV0Size : Int)) vnFields)

/-- The in-memory value of each post-v0 field after Go readFileAttr: the
struct is zero-initialized and binary.Read fills exactly the fields the
loop reached, so a field holds its on-disk value when read and 0
otherwise. -/
def readAttrValue (wasRead : List AttrField) (vals : AttrField → Nat)
    (f : AttrField) : Nat :=
  if f ∈ wasRead then vals f else 0

/-- The byte offset at which a post-v0 field starts inside eventAttrVN:
the v0 size plus the sizes of all fields before it. -/
def attrFieldOffset (f : AttrField) : Nat :=
  eventAttrV0Size + ((vnFields.takeWhile (fun g => g ≠ f)).map AttrField.byteSize).sum

/-- The id-map construction loop of Go New (part_008 lines 104-114): for
each attr in order, read its IDs section and map every id to (the address
of a copy of) that attr. We model attr pointers by attr index; a later
attr overwrites an earlier one on a duplicate id. The input is the list of
id lists, one per attr. -/
def buildIdToAttr (idLists : List (List Nat)) : Nat → Option Nat :=
  (idLists.enum).foldl
    (fun acc p => p.2.foldl (fun acc2 id => fun q => if q = id then some p.1 else acc2 q) acc)
    (fun _ => none)

/-- The per-file state that Go Records record-attr resolution consults:
the attrs table (modelled by the list of attr tags; getAttr returns attr
indices, standing for the pointers into this table) and the id-to-attr
map. -/
structure RecordsState where
  attrs : List Nat
  idToAttr : Nat → Option Nat

/-- Go Records.getAttr (part_007 lines 201-216): with a single event, or
for id 0, every id resolves to the first attr; otherwise look the id up,
and an unknown id is an error unless nilOk. Returns the resolved attr
index (none for nil) together with the error Go would store in r.err. -/
def getAttr (st : RecordsState) (id : Nat) (nilOk : Bool) :
    Option Nat × Option String :=
  if st.attrs.length = 1 ∨ id = 0 then
    (some 0, none)
  else
    match st.idToAttr id with
    | some a => (some a, none)
    | none =>
      if !nilOk then (none, some "event has unknown eventAttr ID")
      else (none, none)

/-- The attr-resolution step of Go Records.parseThrottle (part_007 lines
335-340): if the decoded id is unknown but an attr is registered under id
0, silently use that one; otherwise resolve through getAttr with nilOk
false. -/
def parseThrottleAttr (st : RecordsState) (id : Nat) :
    Option Nat × Option String :=
  if st.idToAttr id = none ∧ st.idToAttr 0 ≠ none then
    (st.idToAttr 0, none)
  else
    getAttr st id false

/-- The attr-resolution step of Go Records.parseSample (part_007 lines
491-497): id 0 when the file has no sample id offset, else the raw id
word from the payload, resolved through getAttr with nilOk false. -/
def parseSampleAttr (st : RecordsState) (sampleIDOffset : Int) (rawID : Nat) :
    Option Nat × Option String :=
  let id := if sampleIDOffset = -1 then 0 else rawID
  getAttr st id false

/-- The attr-resolution step of Go Records.parseLost (part_007 lines
293-294): the id word resolved through getAttr with nilOk false. -/
def parseLostAttr (st : RecordsState) (id : Nat) : Option Nat × Option String :=
  getAttr st id false

/-! DataSrc decoding (part_007 lines 709-770 and format.go lines
1390-1489). The Go enumeration constants that the claims mention. -/

/-- Go DataSrcOp constants (format.go): Load = 1, Store = 2, Prefetch = 4,
Exec = 8, NA = 0. -/
def DataSrcOpNA : Nat := 0

def DataSrcOpLoad : Nat := 1

def DataSrcOpStore : Nat := 2

/-- Go DataSrcLevelNA (format.go). -/
def DataSrcLevelNA : Nat := 0

/-- Go DataSrcSnoop constants (format.go): None = 1, Hit = 2, Miss = 4,
HitM = 8, Fwd = 16, NA = 0. -/
def DataSrcSnoopNA : Nat := 0

def DataSrcSnoopFwd : Nat := 16

/-- Go DataSrcLock constants (format.go lines 1455-1457): NA = 0,
Unlocked = 1, Locked = 2. -/
def DataSrcLockNA : Nat := 0

def DataSrcLockUnlocked : Nat := 1

def DataSrcLockLocked : Nat := 2

/-- Go DataSrcTLBNA (format.go). -/
def DataSrcTLBNA : Nat := 0

/-- Go DataSrcBlockNA (format.go). -/
def DataSrcBlockNA : Nat := 0

/-- Go struct DataSrc (format.go lines 1390-1401), with each enumeration
field carried as its Go integer value. -/
structure DataSrc where
  Op : Nat
  Miss : Bool
  Level : Nat
  Snoop : Nat
  Locked : Nat
  TLB : Nat
  LevelNum : Nat
  Remote : Bool
  Block : Nat
  Hops : Nat
deriving Repr, DecidableEq

/-- Go decodeDataSrc (part_007 lines 709-770): unpack the 64-bit memory
data-source descriptor field by field. -/
def decodeDataSrc (d : Nat) : DataSrc :=
  let op := (d >>> 0) &&& 0x1f
  let lvl := (d >>> 5) &&& 0x3fff
  let snoop := (d >>> 19) &&& 0x1f
  let lock := (d >>> 24) &&& 0x3
  let dtlb := (d >>> 26) &&& 0x7f
  let levelNum := (d >>> 33) &&& 0xf
  let remote := (d >>> 37) &&& 0x1
  let snoopX := (d >>> 38) &&& 0x3
  let blk := (d >>> 40) &&& 0x7
  let hops := (d >>> 43) &&& 0x7
  { Op := if op &&& 0x1 != 0 then DataSrcOpNA else op >>> 1
    Miss := if lvl &&& 0x1 != 0 then false else (lvl &&& 0x4) != 0
    Level := if lvl &&& 0x1 != 0 then DataSrcLevelNA else lvl >>> 3
    Snoop :=
      if snoop &&& 0x1 != 0 then DataSrcSnoopNA
      else if snoopX &&& 0x1 != 0 then (snoop >>> 1) ||| DataSrcSnoopFwd
      else snoop >>> 1
    Locked :=
      if lock &&& 0x1 != 0 then DataSrcLockNA
      else if lock &&& 0x02 != 0 then DataSrcLockLocked
      else DataSrcLockUnlocked
    TLB := if dtlb &&& 0x1 != 0 then DataSrcTLBNA else dtlb >>> 1
    LevelNum := levelNum
    Remote := remote != 0
    Block := if blk &&& 0x1 != 0 then DataSrcBlockNA else blk >>> 1
    Hops := hops }

/-! Feature-section loading (part_006 lines 152-167 and part_008 lines
159-170). -/

/-- Go FileMeta.parse (part_006 lines 152-167), with the parser table
(featureParsers) and the section read (fileSection.data over the reader)
as parameters, and the FileMeta type abstract: when no parser is
registered for the feature the meta is returned unchanged with no error;
a section-read failure or a parser failure is returned as the error, and
on success the meta produced by the parser is returned. -/
def FileMetaParse (parserFor : Nat → Option (μ → List Nat → Except String μ))
    (secData : fileSection → Except String (List Nat))
    (f : Nat) (sec : fileSection) (m : μ) : μ × Option String :=
  match parserFor f with
  | none => (m, none)
  | some parser =>
    match secData sec with
    | .error e => (m, some e)
    | .ok data =>
      match parser m data with
      | .error e => (m, some e)
      | .ok m2 => (m2, none)

/-- The number of feature bits (format.go line 18). -/
def numFeatureBits : Nat := 256

/-- The feature-section loop of Go New (part_008 lines 159-170): for every
set bit of the feature bitmap, read the next fileSection descriptor
(a binary.Read whose failure aborts New with that error) and invoke
Meta.parse on it. The source discards the value returned by
file.Meta.parse, so the loop continues and New does not fail no matter
what parse returned; only the final meta accumulates. The descriptor
stream is modelled as a function from the feature bit to the
descriptor-read result. -/
def newLoadFeatures (hdr : fileHeader)
    (readSec : Nat → Except String fileSection)
    (parse : Nat → fileSection → μ → μ × Option String)
    (m0 : μ) : Except String μ :=
  (List.range numFeatureBits).foldlM
    (fun m bit =>
      if hdr.hasFeature bit then
        match readSec bit with
        | .error e => .error e
        | .ok sec => .ok (parse bit sec m).1
      else .ok m)
    m0

/-! Time-ordered record iteration (part_008 lines 321-377). -/

/-- One entry of the first pass of Go File.Records in time order (part_008
lines 344-349): the file offset and the Time of the record common data, in
file order. A record without a Time field has Time 0 here, because
RecordCommon.Time is only assigned through bufDecoder.u64If, which yields
0 when the SampleFormatTime bit is clear. -/
structure RecEnt where
  pos : Int
  time : Nat
deriving Repr, DecidableEq

/-- Go bufDecoder.u64If (bufdecoder.go): the decoded word when the flag
bit is set, 0 otherwise. The Time of every record is read through this,
so records lacking a Time field carry time 0 into the sort. -/
def u64If (cond : Bool) (val : Nat) : Nat :=
  if cond then val else 0

/-- The comparison of Go timeSorter (part_008 lines 360-376) turned into
the non-strict form a stable sorting routine is specified against:
sort.Stable with Less i j = ts i < ts j produces exactly the unique
stable sort by time, which is what List.mergeSort with this le computes. -/
def timeLE (a b : RecEnt) : Bool := a.time ≤ b.time

/-- The sort pass of Go File.Records in time order (part_008 line 353):
sort.Stable over the (offset, time) pairs collected in file order, by
time. The emitted record order is this permutation (the iterator re-reads
records at the sorted offsets). -/
def timeSortPass (l : List RecEnt) : List RecEnt :=
  l.mergeSort timeLE

end perffile

open perfsession perffile

/-! Supporting lemmas (shared, not tied to a single claim status). -/

theorem timeLE_trans (a b c : RecEnt) : timeLE a b → timeLE b c → timeLE a c := by
  simp only [timeLE, decide_eq_true_eq]
  omega

theorem timeLE_total (a b : RecEnt) : timeLE a b || timeLE b a := by
  simp only [timeLE, Bool.or_eq_true, decide_eq_true_eq]
  omega

/-- Stability of the time-sort pass: the subsequence of entries carrying
any fixed time value is exactly the same, in the same order, before and
after the pass. -/
theorem timeSortPass_filter_time (l : List RecEnt) (t : Nat) :
    (timeSortPass l).filter (fun r => r.time == t) =
      l.filter (fun r => r.time == t) := by
  have hall : ∀ r ∈ l.filter (fun r => r.time == t), r.time = t := by
    intro r hr
    simpa using (List.of_mem_filter hr)
  have hpair : (l.filter (fun r => r.time == t)).Pairwise (fun a b => timeLE a b = true) := by
    apply List.pairwise_of_forall_mem_list
    intro a ha b hb
    simp [timeLE, hall a ha, hall b hb]
  have hsub : List.Sublist (l.filter (fun r => r.time == t)) (timeSortPass l) :=
    List.sublist_mergeSort timeLE_trans timeLE_total hpair (List.filter_sublist l)
  have hself : (l.filter (fun r => r.time == t)).filter (fun r => r.time == t) =
      l.filter (fun r => r.time == t) := by
    apply List.filter_eq_self.mpr
    intro a ha
    simp [hall a ha]
  have hsub2 : List.Sublist (l.filter (fun r => r.time == t))
      ((timeSortPass l).filter (fun r => r.time == t)) := by
    have h2 := hsub.filter (fun r => r.time == t)
    rwa [hself] at h2
  have hlen : ((timeSortPass l).filter (fun r => r.time == t)).length =
      (l.filter (fun r => r.time == t)).length :=
    ((List.mergeSort_perm l timeLE).filter (fun r => r.time == t)).length_eq
  exact (hsub2.eq_of_length hlen.symm).symm

/-- The single-attr id map built by New maps every id either nowhere or to
the sole attr (index 0). -/
theorem foldl_idmap_single (ids : List Nat) (acc : Nat → Option Nat)
    (h : ∀ q, acc q = none ∨ acc q = some 0) (q : Nat) :
    (ids.foldl (fun acc2 id => fun q2 => if q2 = id then some 0 else acc2 q2) acc) q = none ∨
    (ids.foldl (fun acc2 id => fun q2 => if q2 = id then some 0 else acc2 q2) acc) q = some 0 := by
  induction ids generalizing acc with
  | nil => exact h q
  | cons i rest ih =>
    simp only [List.foldl_cons]
    apply ih
    intro q2
    by_cases hq : q2 = i
    · simp [hq]
    · simpa [hq] using h q2

theorem buildIdToAttr_single (ids : List Nat) (q : Nat) :
    buildIdToAttr [ids] q = none ∨ buildIdToAttr [ids] q = some 0 :=
  foldl_idmap_single ids (fun _ => none) (fun _ => Or.inl rfl) q

/-! Claim theorems. -/

/-- C1: the munmap-subtraction claim fails on the source. Evaluating
PIDInfo.munmap 150 20 on a PIDInfo holding the single map [100, 300)
(Addr 100, Len 200, FileOffset 0): the split branch leaves the tail copy
with Addr still 100 and Len equal to the wrapped uint64 value
170 - 300 = 2 to the 64 minus 130, and FileOffset untouched, so a map
still intersects [150, 170) (mapFind finds one at address 150) and the
claimed tail [170, 300) with FileOffset 70 does not exist. -/
theorem munmap_split_bug_eval :
    ((PIDInfo.munmap ⟨(), "c", true, [⟨(), 100, 200, 0, "f"⟩]⟩ 150 20 : PIDInfo Unit)).maps =
      [⟨(), 100, 50, 0, "f"⟩, ⟨(), 100, 18446744073709551486, 0, "f"⟩] ∧
    (mapFind ((PIDInfo.munmap ⟨(), "c", true, [⟨(), 100, 200, 0, "f"⟩]⟩ 150 20 : PIDInfo Unit)).maps 150).isSome = true ∧
    ¬ (∃ m, m ∈ ((PIDInfo.munmap ⟨(), "c", true, [⟨(), 100, 200, 0, "f"⟩]⟩ 150 20 : PIDInfo Unit)).maps ∧
        m.Addr = 170 ∧ m.Len = 130 ∧ m.FileOffset = 70) := by
  refine ⟨by decide, by decide, by decide⟩

/-- C2: the non-overlap invariant fails on the source. After the Update
sequence mmap(pid 5, [100, 300)) then mmap(pid 5, [150, 170)), the maps
list of pid 5 is [100, 150), the corrupt split tail (Addr 100, wrapped
Len), and the new [150, 170) map, and that list is not pairwise disjoint
in the claimed sense. -/
theorem Update_overlap_bug_eval :
    (((((Session.new : Session Unit)).Update (.mmap 5 100 200 0 "f")).Update
        (.mmap 5 150 20 0 "g")).LookupPID 5 =
      some ⟨(), "", true,
        [⟨(), 100, 50, 0, "f"⟩, ⟨(), 100, 18446744073709551486, 0, "f"⟩,
         ⟨(), 150, 20, 0, "g"⟩]⟩) ∧
    ¬ List.Pairwise disjointMmap
        [(⟨(), 100, 50, 0, "f"⟩ : Mmap Unit), ⟨(), 100, 18446744073709551486, 0, "f"⟩,
         ⟨(), 150, 20, 0, "g"⟩] := by
  refine ⟨by decide, by decide⟩

/-- C9: PIDInfo.fork copies Comm and clones the maps list map-by-map
(forking each extras bag), and in the concrete comm/mmap/fork Update
scenario the child pid 11 has the parent Comm and LookupMmap 5000 returns
the cloned [4096, 8192) mapping of file /a. -/
theorem fork_clones_comm_and_maps {ε : Type} [Forkable ε]
    (p : PIDInfo ε) (pid : Int) :
    ((p.fork pid).Comm = p.Comm ∧
     (p.fork pid).maps = p.maps.map (fun m => m.fork pid)) ∧
    ((((((Session.new : Session Unit)).Update (.comm 10 "parent")).Update
          (.mmap 10 4096 4096 0 "/a")).Update (.fork 11 11 10)).LookupPID 11 =
        some ⟨(), "parent", true, [⟨(), 4096, 4096, 0, "/a"⟩]⟩) ∧
    (PIDInfo.LookupMmap ⟨(), "parent", true, [⟨(), 4096, 4096, 0, "/a"⟩]⟩
        ((((((Session.new : Session Unit)).Update (.comm 10 "parent")).Update
          (.mmap 10 4096 4096 0 "/a")).Update (.fork 11 11 10))) 5000 =
      some ⟨(), 4096, 4096, 0, "/a"⟩) := by
  refine ⟨⟨rfl, rfl⟩, by decide, by decide⟩

/-- C4: the time-ordered pass is a stable sort by Time of the file-order
sequence: the output is pairwise (hence adjacently) nondecreasing in time,
entries with any equal time keep their file order, the output is a
permutation of the input, and a record whose format lacks the Time bit
carries time 0 into the pass (bufDecoder.u64If with a clear flag). -/
theorem Records_time_order_stable_sort (l : List RecEnt) :
    (timeSortPass l).Pairwise (fun a b => a.time ≤ b.time) ∧
    (∀ t : Nat, (timeSortPass l).filter (fun r => r.time == t) =
      l.filter (fun r => r.time == t)) ∧
    (timeSortPass l).Perm l ∧
    (∀ v : Nat, u64If false v = 0) := by
  refine ⟨?_, fun t => timeSortPass_filter_time l t, List.mergeSort_perm l timeLE, fun v => rfl⟩
  have h := List.sorted_mergeSort timeLE_trans timeLE_total l
  exact h.imp (by intro a b hab; simpa [timeLE] using hab)

/-- C3: the feature-parse-failure claim fails on the source: New discards
the value returned by file.Meta.parse. Concretely, with feature bit 13
(CPU topology) set and its parser failing, FileMeta.parse returns the
error, yet the feature loop of New completes with ok; and in general the
result of the loop never depends on the error component of parse. -/
theorem New_ignores_feature_parse_error :
    FileMetaParse
        (fun f => if f = 13 then some (fun _ _ => Except.error "bad cpuset") else none)
        (fun _ => Except.ok []) 13 ⟨300, 4⟩ (0 : Nat) = (0, some "bad cpuset") ∧
    newLoadFeatures ⟨"PERFILE2", 104, 64, ⟨0, 64⟩, ⟨200, 8⟩, ⟨0, 0⟩, [8192, 0, 0, 0]⟩
        (fun _ => Except.ok ⟨300, 4⟩)
        (FileMetaParse
          (fun f => if f = 13 then some (fun _ _ => Except.error "bad cpuset") else none)
          (fun _ => Except.ok []))
        (0 : Nat) = Except.ok 0 ∧
    (∀ (μ : Type) (hdr : fileHeader) (readSec : Nat → Except String fileSection)
        (parse : Nat → fileSection → μ → μ × Option String) (m0 : μ),
      newLoadFeatures hdr readSec parse m0 =
        newLoadFeatures hdr readSec (fun b sec m => ((parse b sec m).1, none)) m0) := by
  refine ⟨rfl, by decide, fun μ hdr readSec parse m0 => rfl⟩

/-- C5 counterexample: decodeDataSrc on the word 0x64 yields Locked equal
to DataSrcLockUnlocked, which differs from the claimed DataSrcLockNA, so
the claimed DataSrc value is not the decoded one. -/
theorem decodeDataSrc_locked_counterexample :
    (decodeDataSrc 0x64).Locked = DataSrcLockUnlocked ∧
    DataSrcLockUnlocked ≠ DataSrcLockNA ∧
    decodeDataSrc 0x64 ≠
      ⟨DataSrcOpStore, false, DataSrcLevelNA, DataSrcSnoopNA, DataSrcLockNA,
       DataSrcTLBNA, 0, false, 0, 0⟩ := by
  refine ⟨by decide, by decide, by decide⟩

/-- C5 amended: decodeDataSrc 0x64 yields Op Store, Level NA, Snoop NA,
Locked DataSrcLockUnlocked, TLB NA, Miss false; the low-NA-bit-else-shift
rule holds for the op and TLB subfields, while the lock subfield decodes
NA from its low bit, Locked from its second bit, and Unlocked otherwise. -/
theorem decodeDataSrc_amended :
    decodeDataSrc 0x64 =
      ⟨DataSrcOpStore, false, DataSrcLevelNA, DataSrcSnoopNA, DataSrcLockUnlocked,
       DataSrcTLBNA, 0, false, 0, 0⟩ ∧
    (∀ d : Nat, (decodeDataSrc d).Op =
      if ((d >>> 0) &&& 0x1f) &&& 0x1 != 0 then DataSrcOpNA
      else ((d >>> 0) &&& 0x1f) >>> 1) ∧
    (∀ d : Nat, (decodeDataSrc d).TLB =
      if ((d >>> 26) &&& 0x7f) &&& 0x1 != 0 then DataSrcTLBNA
      else ((d >>> 26) &&& 0x7f) >>> 1) ∧
    (∀ d : Nat, (decodeDataSrc d).Locked =
      if ((d >>> 24) &&& 0x3) &&& 0x1 != 0 then DataSrcLockNA
      else if ((d >>> 24) &&& 0x3) &&& 0x02 != 0 then DataSrcLockLocked
      else DataSrcLockUnlocked) := by
  refine ⟨by decide, fun d => rfl, fun d => rfl, fun d => rfl⟩

/-- C6: the header-validation part of New succeeds exactly when the magic
is the little-endian v2 string, the header size matches, the data-section
size is nonzero, the attr size is nonzero, and the attr count is nonzero
and not implausibly large; and the big-endian v2 and v1 magic strings are
rejected with the unsupported errors, whatever the rest of the header. -/
theorem checkHeader_error_characterization (hdr : fileHeader) :
    ((∃ n, checkHeader hdr = Except.ok n) ↔
      (hdr.Magic = "PERFILE2" ∧ hdr.Size = fileHeaderSize ∧ hdr.Data.Size ≠ 0 ∧
       hdr.AttrSize ≠ 0 ∧ hdr.Attrs.Size / hdr.AttrSize ≠ 0 ∧
       hdr.Attrs.Size / hdr.AttrSize ≤ 64 * 1024)) ∧
    checkHeader { hdr with Magic := "2ELIFREP" } =
      Except.error "big endian profiles not supported" ∧
    checkHeader { hdr with Magic := "PERFFILE" } =
      Except.error "version 1 profiles not supported" := by
  refine ⟨?_, by simp [checkHeader], by simp [checkHeader]⟩
  constructor
  · rintro ⟨n, hn⟩
    unfold checkHeader at hn
    by_cases h1 : hdr.Magic = "PERFILE2"
    · simp [h1] at hn
      by_cases h2 : hdr.Size = fileHeaderSize <;> simp [h2] at hn
      by_cases h3 : hdr.Data.Size = 0 <;> simp [h3] at hn
      by_cases h4 : hdr.AttrSize = 0 <;> simp [h4] at hn
      by_cases h5 : hdr.Attrs.Size / hdr.AttrSize = 0 <;> simp [h5] at hn
      by_cases h6 : hdr.Attrs.Size / hdr.AttrSize > 64 * 1024 <;> simp [h6] at hn
      exact ⟨h1, h2, h3, h4, h5, by omega⟩
    · rw [if_neg h1] at hn
      split_ifs at hn
  · rintro ⟨m1, m2, m3, m4, m5, m6⟩
    refine ⟨hdr.Attrs.Size / hdr.AttrSize, ?_⟩
    unfold checkHeader
    rw [if_pos m1, if_neg (show ¬ hdr.Size ≠ fileHeaderSize by omega),
      if_neg m3, if_neg m4, if_neg m5,
      if_neg (show ¬ hdr.Attrs.Size / hdr.AttrSize > 64 * 1024 by omega)]

/-- C7: parseThrottle resolves an id absent from the id map to the attr
registered under id 0 with no error; and in a file with exactly one
EventAttr (whatever ids its id section lists), a throttle referencing id
42 resolves to that sole attr with no error. -/
theorem parseThrottle_unknown_id_fallback (st : RecordsState) (id a : Nat)
    (ids : List Nat)
    (h1 : st.idToAttr id = none) (h2 : st.idToAttr 0 = some a) :
    parseThrottleAttr st id = (some a, none) ∧
    parseThrottleAttr ⟨[7], buildIdToAttr [ids]⟩ 42 = (some 0, none) := by
  constructor
  · unfold parseThrottleAttr
    rw [if_pos ⟨h1, by simp [h2]⟩, h2]
  · unfold parseThrottleAttr
    rcases buildIdToAttr_single ids 42 with h42 | h42 <;>
      rcases buildIdToAttr_single ids 0 with h0 | h0 <;>
        simp [h42, h0, getAttr]

/-- C7 witness: a two-event state whose id map lacks 42 but maps 0, and
the single-event state built from the id list [0]. -/
theorem parseThrottle_unknown_id_fallback_witness :
    ((fun q => if q = 0 then some 1 else (none : Option Nat)) 42 = none ∧
     (fun q => if q = 0 then some 1 else (none : Option Nat)) 0 = some 1) ∧
    parseThrottleAttr ⟨[3, 4], fun q => if q = 0 then some 1 else none⟩ 42 = (some 1, none) ∧
    parseThrottleAttr ⟨[7], buildIdToAttr [[0]]⟩ 42 = (some 0, none) :=
  ⟨⟨rfl, rfl⟩,
   parseThrottle_unknown_id_fallback
     ⟨[3, 4], fun q => if q = 0 then some 1 else none⟩ 42 1 [0] rfl rfl⟩

/-- C10: with exactly one EventAttr, getAttr resolves every id (so samples
and lost records with arbitrary unknown ids resolve without error), and id
0 always resolves to the first attr whatever the state. -/
theorem getAttr_single_event_total (st st2 : RecordsState) (id rawID : Nat)
    (off : Int) (nilOk2 : Bool) (h : st.attrs.length = 1) :
    getAttr st id false = (some 0, none) ∧
    parseSampleAttr st off rawID = (some 0, none) ∧
    parseLostAttr st id = (some 0, none) ∧
    getAttr st2 0 nilOk2 = (some 0, none) := by
  have hg : ∀ j, getAttr st j false = (some 0, none) := by
    intro j
    unfold getAttr
    rw [if_pos (Or.inl h)]
  refine ⟨hg id, ?_, hg id, ?_⟩
  · unfold parseSampleAttr
    by_cases hoff : off = -1 <;> simp [hoff, hg]
  · unfold getAttr
    rw [if_pos (Or.inr rfl)]

/-- C10 witness: a single-event state resolving the unknown id 42, and a
two-event state resolving id 0. -/
theorem getAttr_single_event_total_witness :
    ([5].length = 1) ∧
    getAttr ⟨[5], fun _ => none⟩ 42 false = (some 0, none) ∧
    parseSampleAttr ⟨[5], fun _ => none⟩ 16 99 = (some 0, none) ∧
    parseLostAttr ⟨[5], fun _ => none⟩ 42 = (some 0, none) ∧
    getAttr ⟨[5, 6], fun _ => none⟩ 0 false = (some 0, none) :=
  ⟨rfl, getAttr_single_event_total ⟨[5], fun _ => none⟩ ⟨[5, 6], fun _ => none⟩
    42 99 16 false rfl⟩

/-- C8: readFileAttr treats a declared size of 0 as the 64-byte v0 layout
and reads no extra field; a declared size beyond the 128-byte v7 layout is
an error; otherwise the post-v0 fields read are exactly the in-order
prefix of fields starting below the declared size, and a field outside
the declared size keeps its zero value. -/
theorem readFileAttr_size_strategy :
    readFileAttrFields 0 = Except.ok (64, []) ∧
    (∀ m : Nat, readFileAttrFields (129 + m) =
      Except.error "event attr size too large; more recent and unsupported format") ∧
    (∀ n : Fin 129, readFileAttrFields n.val =
      Except.ok ((if n.val = 0 then 64 else n.val),
        vnFields.takeWhile (fun f => attrFieldOffset f < n.val))) ∧
    (∀ n : Fin 129, ∀ vals : AttrField → Nat, ∀ f : AttrField,
      readAttrValue (readExtraFields ((n.val : Int) - 64) vnFields) vals f =
        if attrFieldOffset f < n.val then vals f else 0) := by
  refine ⟨rfl, ?_, by decide, ?_⟩
  · intro m
    unfold readFileAttrFields
    rw [if_neg (by omega), if_pos (by unfold eventAttrVNSize; omega)]
  · intro n vals f
    unfold readAttrValue
    have hmem : (f ∈ readExtraFields ((n.val : Int) - 64) vnFields) ↔
        attrFieldOffset f < n.val := by
      cases f <;> (revert n; decide)
    exact if_congr hmem rfl rfl
